import Mathlib

/-!
Shallow embedding of the CrimsonBites frontend logic that the verified
claims concern: the ISO-week label computation, the macro-to-calorie
chart data transform, the tooltip grand total, the x-axis tick interval
and the chart render states (from
`src/frontend/src/components/nutritionHistory/MacroChart.jsx`), and the
plate-save payload construction and nutrition-history version behaviour
(from `src/frontend/src/App.jsx`).

Modelling conventions:
- JavaScript numbers appearing here are modelled as rationals (ℚ);
  `Math.round` rounds halves toward positive infinity, i.e. `⌊q + 1/2⌋`.
- Calendar dates are modelled as integer day numbers (days since
  1970-01-01, proleptic Gregorian).  The `Date` operations used by
  `getISOWeekDates` (`new Date(year, 0, d)` with an arbitrary, possibly
  out-of-range day argument, `getDay`, and day-offset `setDate` calls)
  act on day numbers as plain integer arithmetic, since `setDate` with
  an out-of-range day normalises exactly like adding days.  `getDay` of
  day number `z` is `(z + 4) % 7` with `0 = Sunday`, because 1970-01-01
  was a Thursday.  The `Date(year, month, day)` constructor maps a year
  argument in `0..99` to `1900 + year`.
- Values whose runtime type the code inspects (`typeof`, truthiness,
  `String(...)`) are modelled by the `JVal` type below.
-/

namespace CrimsonBites

/-- A JavaScript value, restricted to the shapes the embedded code inspects. -/
inductive JVal where
  | num (q : ℚ)
  | str (s : String)
  | undef
  | bool (b : Bool)
deriving DecidableEq

/-- JavaScript truthiness of a `JVal`: `0`, `""`, `undefined` and `false`
are falsy, everything else modelled here is truthy. -/
def JVal.truthy : JVal → Bool
  | .num q => q ≠ 0
  | .str s => s ≠ ""
  | .undef => false
  | .bool b => b

/-- JavaScript `a || b`. -/
def jsOr (a b : JVal) : JVal := if a.truthy then a else b

/-- JavaScript `String(v)`. -/
def JVal.jsToString : JVal → String
  | .num q => toString q
  | .str s => s
  | .undef => "undefined"
  | .bool b => toString b

/-- JavaScript `s.startsWith(pre)`, as prefix comparison of the character
sequences. -/
def jsStartsWith (s pre : String) : Bool := pre.data.isPrefixOf s.data

/-- JavaScript `typeof v === 'number' ? v : 0`, the coercion used on the
macro fields in `convertedData`. -/
def numOr0 : JVal → ℚ
  | .num q => q
  | _ => 0

/-- JavaScript `Math.round`: rounds halves toward positive infinity. -/
def jsRound (q : ℚ) : ℤ := ⌊q + 1/2⌋

/-! ### Calendar arithmetic for `getISOWeekDates` (MacroChart.jsx) -/

/-- Day number (days since 1970-01-01) of January 1 of proleptic-Gregorian
year `y`, by the rata-die formula (floor division so that the formula is
total; the claims only use four-digit years). -/
def jan1DayNumber (y : Int) : Int :=
  365 * (y - 1) + (y - 1).fdiv 4 - (y - 1).fdiv 100 + (y - 1).fdiv 400 - 719162

/-- The year actually used by the JavaScript `Date(year, month, day)`
constructor: a year argument in `0..99` is mapped to `1900 + year`. -/
def jsDateYear (y : Int) : Int := if 0 ≤ y ∧ y ≤ 99 then 1900 + y else y

/-- JavaScript `getDay()` of a day number: `0 = Sunday .. 6 = Saturday`. -/
def jsGetDay (z : Int) : Int := (z + 4) % 7

/-- The `simple` local of `getISOWeekDates`:
`new Date(year, 0, 1 + (week - 1) * 7)` as a day number. -/
def isoSimple (year week : Int) : Int :=
  jan1DayNumber (jsDateYear year) + (week - 1) * 7

/-- The `ISOweekStart` local of `getISOWeekDates`: when `simple.getDay() ≤ 4`
the code sets the date to `simple.getDate() - simple.getDay() + 1`, otherwise
to `simple.getDate() + 8 - simple.getDay()`; both are day offsets from
`simple`. -/
def isoWeekStart (year week : Int) : Int :=
  if jsGetDay (isoSimple year week) ≤ 4 then
    isoSimple year week - jsGetDay (isoSimple year week) + 1
  else
    isoSimple year week + 8 - jsGetDay (isoSimple year week)

/-- `getISOWeekDates` from MacroChart.jsx: returns the start day and the end
day (`ISOweekEnd` is `ISOweekStart` plus 6 days). -/
def getISOWeekDates (year week : Int) : Int × Int :=
  (isoWeekStart year week, isoWeekStart year week + 6)

/-- The anchor in the spec's words: the day number of January 1 of year `y`
(no two-digit-year remapping) plus `(week - 1) * 7` days. -/
def specAnchor (year week : Int) : Int :=
  jan1DayNumber year + (week - 1) * 7

/-- Day number of the most recent Monday on or before day `z`. -/
def mostRecentMondayOnOrBefore (z : Int) : Int :=
  z - (jsGetDay z + 6) % 7

/-- Day number of the next Monday strictly after day `z`. -/
def nextMondayAfter (z : Int) : Int :=
  z + (7 - (jsGetDay z + 6) % 7)

/-- The week start exactly as claim C1 words it: when the anchor's weekday
(0=Sunday..6=Saturday) is `≤ 4`, the most recent Monday on or before the
anchor; otherwise the next Monday after the anchor. -/
def claimedWeekStart (year week : Int) : Int :=
  if jsGetDay (specAnchor year week) ≤ 4 then
    mostRecentMondayOnOrBefore (specAnchor year week)
  else
    nextMondayAfter (specAnchor year week)

/-- The amended week start: the most recent Monday on or before the anchor
only when the anchor's weekday is Monday..Thursday (1..4); for Sunday (0),
Friday (5) and Saturday (6) the next Monday after the anchor. -/
def amendedWeekStart (year week : Int) : Int :=
  if 1 ≤ jsGetDay (specAnchor year week) ∧ jsGetDay (specAnchor year week) ≤ 4 then
    mostRecentMondayOnOrBefore (specAnchor year week)
  else
    nextMondayAfter (specAnchor year week)

/-! ### Chart data transform (MacroChart.jsx) -/

/-- One input bucket of the macro chart: a label and the raw macro fields,
kept as `JVal` because the code inspects their runtime type. -/
structure ChartDatum where
  name : String
  protein : JVal
  carbs : JVal
  fat : JVal
deriving DecidableEq

/-- One converted bucket: rounded kcal values per series plus the attached
`total` field (the spread `...day` keeps the label unchanged). -/
structure ConvertedDatum where
  name : String
  protein : Int
  carbs : Int
  fat : Int
  total : Int
deriving DecidableEq

/-- The raw (pre-rounding, pre-flooring) calorie sum of a bucket: the
`calories` local of `convertedData`, `protein * 4 + carbs * 4 + fat * 9`
on the `typeof`-coerced gram values. -/
def rawCalories (day : ChartDatum) : ℚ :=
  numOr0 day.protein * 4 + numOr0 day.carbs * 4 + numOr0 day.fat * 9

/-- The per-bucket transform inside `convertedData` in MacroChart.jsx. -/
def convertDatum (day : ChartDatum) : ConvertedDatum :=
  let protein := numOr0 day.protein
  let carbs := numOr0 day.carbs
  let fat := numOr0 day.fat
  let calories := protein * 4 + carbs * 4 + fat * 9
  { name := day.name
    protein := if jsRound (protein * 4) < 1 then 0 else jsRound (protein * 4)
    carbs := if jsRound (carbs * 4) < 1 then 0 else jsRound (carbs * 4)
    fat := if jsRound (fat * 9) < 1 then 0 else jsRound (fat * 9)
    total := jsRound calories }

/-- `convertedData`: the converted bucket list. -/
def convertedData (chartData : List ChartDatum) : List ConvertedDatum :=
  chartData.map convertDatum

/-- `xAxisInterval` from MacroChart.jsx, as a function of the view mode and
the converted data length. -/
def xAxisInterval (viewMode : String) (dataLength : Nat) : Nat :=
  if viewMode = "monthly" then 0
  else if dataLength > 90 then 29
  else if dataLength > 30 then 6
  else if dataLength > 14 then 2
  else if dataLength > 7 then 1
  else 0

/-! ### Tooltip (MacroChart.jsx) -/

/-- One recharts tooltip payload entry: the series name and the plotted
value, which recharts takes from the converted data given to the chart. -/
structure TooltipEntry where
  name : String
  value : Int
deriving DecidableEq

/-- The payload recharts hands the tooltip when a bucket is hovered and all
three stacked `Bar` series are visible: one entry per series, carrying the
converted datum's value for that series' data key. -/
def tooltipPayloadOf (d : ConvertedDatum) : List TooltipEntry :=
  [⟨"Protein", d.protein⟩, ⟨"Carbs", d.carbs⟩, ⟨"Fat", d.fat⟩]

/-- `payload.reduce((sum, entry) => sum + (entry.value || 0), 0)`.  On the
integer values carried here `entry.value || 0` is the identity, since the
only falsy number is `0` and `0 || 0` is `0`. -/
def totalKcal (payload : List TooltipEntry) : Int :=
  payload.foldl (fun sum entry => sum + entry.value) 0

/-- The rendered tooltip: one line per series (name, value, unit prop) and
the total line.  The date-label line is independent of the totals and of the
unit and is not modelled. -/
structure TooltipRender where
  seriesLines : List (String × Int × String)
  totalLine : String
deriving DecidableEq

/-- `CustomTooltip` from MacroChart.jsx: renders nothing when inactive or
when the payload is empty; otherwise one line per payload entry suffixed
with the `unit` prop, and a total line whose unit is hard-coded to `kcal`. -/
def CustomTooltip (active : Bool) (payload : List TooltipEntry) (unit : String) :
    Option TooltipRender :=
  if !active || payload.isEmpty then none
  else some
    { seriesLines := payload.map (fun entry => (entry.name, entry.value, unit))
      totalLine := "Total: " ++ toString (totalKcal payload) ++ " kcal" }

/-! ### MacroChart render states (MacroChart.jsx) -/

/-- The three render states of `MacroChart`. -/
inductive RenderResult where
  | loadingPlaceholder
  | emptyState
  | chart (data : List ConvertedDatum) (interval : Nat) (barSize : Nat)
deriving DecidableEq

/-- `MacroChart`'s top-level render decision: `loading` wins, then the
empty-data message, otherwise the bar chart over the converted data with
the computed axis interval and the granularity-dependent bar size. -/
def MacroChart_render (unit viewMode : String) (data : List ChartDatum)
    (loading : Bool) : RenderResult :=
  let chartData := if data.length > 0 then data else []
  if loading then .loadingPlaceholder
  else if chartData.length = 0 then .emptyState
  else .chart (convertedData chartData)
    (xAxisInterval viewMode (convertedData chartData).length)
    (if viewMode = "daily" then 30 else 50)

/-! ### Plate save (App.jsx) -/

/-- A tracked food item as held in the shell state, restricted to the fields
`handleSavePlate` reads. -/
structure TrackedItem where
  id : JVal
  _id : JVal
  quantity : JVal
  calories : JVal
  protein : JVal
  carbs : JVal
  totalFat : JVal
  name : JVal
deriving DecidableEq

/-- The `custom_macros` object attached for custom foods. -/
structure CustomMacros where
  calories : JVal
  protein : JVal
  carbs : JVal
  totalFat : JVal
  name : JVal
deriving DecidableEq

/-- One item of the plate payload. -/
structure PlateItem where
  food_id : JVal
  quantity : JVal
  custom_macros : Option CustomMacros
deriving DecidableEq

/-- The per-item mapping inside `handleSavePlate`: `foodId = item.id ||
item._id`, `quantity = item.quantity || 1`, and `custom_macros` attached
exactly when `String(foodId).startsWith('custom-')`. -/
def toPlateItem (item : TrackedItem) : PlateItem :=
  { food_id := jsOr item.id item._id
    quantity := jsOr item.quantity (.num 1)
    custom_macros :=
      if jsStartsWith (jsOr item.id item._id).jsToString "custom-" then
        some ⟨item.calories, item.protein, item.carbs, item.totalFat, item.name⟩
      else none }

/-- A JavaScript `Date` as read by `getLocalDateString`: `getFullYear()`,
the zero-based `getMonth()` and `getDate()`. -/
structure JSDate where
  fullYear : Int
  monthIndex : Nat
  dayOfMonth : Nat
deriving DecidableEq

/-- `.padStart(2, '0')`. -/
def padStart2 (s : String) : String :=
  if s.length < 2 then String.mk (List.replicate (2 - s.length) '0') ++ s else s

/-- `getLocalDateString` from App.jsx. -/
def getLocalDateString (date : JSDate) : String :=
  toString date.fullYear ++ "-" ++ padStart2 (toString (date.monthIndex + 1)) ++ "-" ++
    padStart2 (toString date.dayOfMonth)

/-- The body of the `POST /api/plate` request. -/
structure PlatePayload where
  date : String
  items : List PlateItem
deriving DecidableEq

/-- The payload built by `handleSavePlate` from the tracked items and the
selected date. -/
def handleSavePlate_payload (trackedItems : List TrackedItem) (date : JSDate) :
    PlatePayload :=
  { date := getLocalDateString date
    items := trackedItems.map toPlateItem }

/-- The outcome of the `fetch` in `handleSavePlate`. -/
inductive FetchOutcome where
  | ok
  | notOk
  | networkError
deriving DecidableEq

/-- The shell state a plate save may touch. -/
structure AppState where
  trackedItems : List TrackedItem
  nutritionHistoryVersion : Int
deriving DecidableEq

/-- The state effect of `handleSavePlate` once the response settles: an OK
response bumps the nutrition-history version via `v => v + 1`; a non-OK
response only logs `Failed to save plate`; a rejected fetch propagates out
of the uncaught `await`, touching neither the state nor the console.
Returns the new state and the console lines the handler itself emits. -/
def handleSavePlate_effect (outcome : FetchOutcome) (s : AppState) :
    AppState × List String :=
  match outcome with
  | .ok => ({ s with nutritionHistoryVersion := s.nutritionHistoryVersion + 1 }, [])
  | .notOk => (s, ["Failed to save plate"])
  | .networkError => (s, [])

/-! ### Concrete example data -/

/-- A bucket with 0.1 g of each macro: raw kcal `0.4 + 0.4 + 0.9 = 1.7`,
displayed segments `0, 0, 1`. -/
def fractionalDatum : ChartDatum :=
  { name := "2024-01-01", protein := .num (1/10), carbs := .num (1/10),
    fat := .num (1/10) }

/-- The spec's monthly example bucket. -/
def januaryDatum : ChartDatum :=
  { name := "2024-01", protein := .num 50, carbs := .num 200, fat := .num 70 }

/-- A tracked item with every field absent, base for the concrete examples. -/
def blankItem : TrackedItem :=
  { id := .undef, _id := .undef, quantity := .undef, calories := .undef,
    protein := .undef, carbs := .undef, totalFat := .undef, name := .undef }

/-! ## Claim theorems -/

/-- C1, counterexample: for the label `2023-W01` the anchor (January 1 2023,
day number 19358) is a Sunday, so its weekday 0 is `≤ 4`, yet the code
returns the Monday after the anchor (19359, January 2 2023), not the most
recent Monday on or before it (19352, December 26 2022) as the claim says. -/
theorem C1_counterexample :
    jsGetDay (specAnchor 2023 1) = 0 ∧
    getISOWeekDates 2023 1 = (19359, 19365) ∧
    mostRecentMondayOnOrBefore (specAnchor 2023 1) = 19352 ∧
    (getISOWeekDates 2023 1).1 ≠ claimedWeekStart 2023 1 := by
  decide

/-- C1, amended: for every year `y ≥ 100` (the JS `Date` constructor remaps
years `0..99` to `1900 + y`, which moves the anchor) and every week number,
the anchor is January 1 of `y` plus `(w - 1) * 7` days; when the anchor's
weekday is Monday..Thursday (1..4) the returned week start is the most
recent Monday on or before the anchor, and when it is Sunday (0), Friday (5)
or Saturday (6) the start is the next Monday after the anchor; the returned
week end is the start plus 6 days. -/
theorem C1_weekStart_amended (year week : Int) (hy : 100 ≤ year) :
    getISOWeekDates year week
      = (amendedWeekStart year week, amendedWeekStart year week + 6) := by
  have hq : jsDateYear year = year := by
    unfold jsDateYear
    split_ifs with h
    · omega
    · rfl
  have hstart : isoWeekStart year week = amendedWeekStart year week := by
    unfold isoWeekStart amendedWeekStart isoSimple specAnchor
      mostRecentMondayOnOrBefore nextMondayAfter jsGetDay
    rw [hq]
    generalize jan1DayNumber year + (week - 1) * 7 = a
    split_ifs <;> omega
  unfold getISOWeekDates
  rw [hstart]

/-- C1, amended, witness at `2024-W02`. -/
theorem C1_weekStart_amended_witness :
    getISOWeekDates 2024 2
      = (amendedWeekStart 2024 2, amendedWeekStart 2024 2 + 6) :=
  C1_weekStart_amended 2024 2 (by decide)

/-- C3: for every year and week number, the computed week end is exactly
6 days after the week start, and the week start falls on a Monday (weekday
1 in the 0=Sunday..6=Saturday convention). -/
theorem C3_weekSpan_monday (year week : Int) :
    (getISOWeekDates year week).2 = (getISOWeekDates year week).1 + 6 ∧
    jsGetDay (getISOWeekDates year week).1 = 1 := by
  refine ⟨rfl, ?_⟩
  show jsGetDay (isoWeekStart year week) = 1
  unfold isoWeekStart jsGetDay
  generalize isoSimple year week = a
  split_ifs <;> omega

/-- C2, counterexample: for a hovered bucket with 0.1 g of protein, carbs
and fat, the raw per-series kcal values sum to `1.7`, but the tooltip's
grand total is `1`, the sum of the rounded-and-floored display values
(`0 + 0 + 1`); the total therefore does not equal the sum of the raw
values as the claim states. -/
theorem C2_counterexample :
    rawCalories fractionalDatum = 17/10 ∧
    totalKcal (tooltipPayloadOf (convertDatum fractionalDatum)) = 1 ∧
    ((totalKcal (tooltipPayloadOf (convertDatum fractionalDatum)) : ℚ)
      ≠ rawCalories fractionalDatum) := by
  have hraw : rawCalories fractionalDatum = 17/10 := by
    norm_num [rawCalories, fractionalDatum, numOr0]
  have htot : totalKcal (tooltipPayloadOf (convertDatum fractionalDatum)) = 1 := by
    norm_num [totalKcal, tooltipPayloadOf, convertDatum, fractionalDatum, numOr0,
      jsRound]
  refine ⟨hraw, htot, ?_⟩
  rw [hraw, htot]
  norm_num

/-- C2, amended: for every hovered bucket, the tooltip's grand total equals
the sum of the rounded-and-floored per-series display values (not the raw
pre-rounding values), and the rendered total line is suffixed with the fixed
unit string `kcal` independently of the chart's configured unit prop. -/
theorem C2_tooltipTotal_amended (d : ChartDatum) (u1 u2 : String) (active : Bool) :
    totalKcal (tooltipPayloadOf (convertDatum d))
      = (convertDatum d).protein + (convertDatum d).carbs + (convertDatum d).fat ∧
    (CustomTooltip active (tooltipPayloadOf (convertDatum d)) u1).map
        TooltipRender.totalLine
      = (CustomTooltip active (tooltipPayloadOf (convertDatum d)) u2).map
        TooltipRender.totalLine ∧
    (CustomTooltip true (tooltipPayloadOf (convertDatum d)) u1).map
        TooltipRender.totalLine
      = some ("Total: "
          ++ toString (totalKcal (tooltipPayloadOf (convertDatum d))) ++ " kcal") := by
  refine ⟨?_, ?_, ?_⟩
  · simp [totalKcal, tooltipPayloadOf]
  · cases active <;> simp [CustomTooltip, tooltipPayloadOf]
  · simp [CustomTooltip, tooltipPayloadOf]

/-- C4: for every bucket whose macro fields are numeric, the displayed
segment values are the rounded per-macro kcal values, each replaced by 0
when the rounded value is below 1, and the attached `total` field is the
rounding of the raw calorie sum; in particular the spec's example bucket
`name 2024-01, protein 50, carbs 200, fat 70` converts to protein 200,
carbs 800, fat 630, total 1630. -/
theorem C4_convertValues (d : ChartDatum) (p c f : ℚ)
    (hp : d.protein = .num p) (hc : d.carbs = .num c) (hf : d.fat = .num f) :
    (convertDatum d).protein = (if jsRound (p * 4) < 1 then 0 else jsRound (p * 4)) ∧
    (convertDatum d).carbs = (if jsRound (c * 4) < 1 then 0 else jsRound (c * 4)) ∧
    (convertDatum d).fat = (if jsRound (f * 9) < 1 then 0 else jsRound (f * 9)) ∧
    (convertDatum d).total = jsRound (p * 4 + c * 4 + f * 9) ∧
    convertDatum januaryDatum
      = { name := "2024-01", protein := 200, carbs := 800, fat := 630,
          total := 1630 } := by
  have hex : convertDatum januaryDatum
      = { name := "2024-01", protein := 200, carbs := 800, fat := 630,
          total := 1630 } := by
    norm_num [convertDatum, januaryDatum, numOr0, jsRound, ConvertedDatum.mk.injEq]
  refine ⟨?_, ?_, ?_, ?_, hex⟩ <;> simp [convertDatum, numOr0, hp, hc, hf]

/-- C4, witness at the spec's example bucket. -/
theorem C4_convertValues_witness :
    (convertDatum januaryDatum).protein
      = (if jsRound ((50 : ℚ) * 4) < 1 then 0 else jsRound ((50 : ℚ) * 4)) ∧
    (convertDatum januaryDatum).carbs
      = (if jsRound ((200 : ℚ) * 4) < 1 then 0 else jsRound ((200 : ℚ) * 4)) ∧
    (convertDatum januaryDatum).fat
      = (if jsRound ((70 : ℚ) * 9) < 1 then 0 else jsRound ((70 : ℚ) * 9)) ∧
    (convertDatum januaryDatum).total
      = jsRound ((50 : ℚ) * 4 + (200 : ℚ) * 4 + (70 : ℚ) * 9) ∧
    convertDatum januaryDatum
      = { name := "2024-01", protein := 200, carbs := 800, fat := 630,
          total := 1630 } :=
  C4_convertValues januaryDatum 50 200 70 rfl rfl rfl

/-- C5: for every view mode and bucket count, the x-axis tick interval is 0
for the monthly view, and otherwise 0 up to 7 buckets, 1 up to 14, 2 up to
30, 6 up to 90, and 29 beyond; in particular 10 daily buckets give interval
1, 50 give 6, and 95 give 29. -/
theorem C5_axisInterval (viewMode : String) (n : Nat) :
    xAxisInterval viewMode n
      = (if viewMode = "monthly" then 0
         else if n ≤ 7 then 0
         else if n ≤ 14 then 1
         else if n ≤ 30 then 2
         else if n ≤ 90 then 6
         else 29) ∧
    xAxisInterval "daily" 10 = 1 ∧
    xAxisInterval "daily" 50 = 6 ∧
    xAxisInterval "daily" 95 = 29 := by
  refine ⟨?_, by decide, by decide, by decide⟩
  unfold xAxisInterval
  split_ifs <;> omega

/-- C6: the plate payload carries the selected date rendered as a local
`YYYY-MM-DD` string (zero-padded, e.g. January 5 2024 gives `2024-01-05`)
and one item per tracked item with its `food_id` and `quantity`, where
`custom_macros` is included exactly when the item's food identifier
(`item.id || item._id`) starts with `custom-`; in particular an item with
id `custom-123` includes `custom_macros` and an item with id `45` omits
it. -/
theorem C6_platePayload (trackedItems : List TrackedItem) (date : JSDate)
    (item : TrackedItem) :
    (handleSavePlate_payload trackedItems date).date = getLocalDateString date ∧
    (handleSavePlate_payload trackedItems date).items
      = trackedItems.map toPlateItem ∧
    getLocalDateString { fullYear := 2024, monthIndex := 0, dayOfMonth := 5 }
      = "2024-01-05" ∧
    (toPlateItem item).food_id = jsOr item.id item._id ∧
    (toPlateItem item).quantity = jsOr item.quantity (.num 1) ∧
    ((toPlateItem item).custom_macros.isSome
       = jsStartsWith (jsOr item.id item._id).jsToString "custom-") ∧
    (toPlateItem { blankItem with id := .str "custom-123" }).custom_macros
      = some ⟨.undef, .undef, .undef, .undef, .undef⟩ ∧
    (toPlateItem { blankItem with id := .str "45" }).custom_macros = none := by
  refine ⟨rfl, rfl, by decide, rfl, rfl, ?_, by decide, by decide⟩
  cases hb : jsStartsWith (jsOr item.id item._id).jsToString "custom-" <;>
    simp [toPlateItem, hb]

/-- C7: for every save outcome, an OK response increments the
nutrition-history version by exactly one, a non-OK response or a failed
request leaves the version unchanged with at most a console log, and the
tracked-items list is unchanged in every outcome. -/
theorem C7_saveOutcome (outcome : FetchOutcome) (s : AppState) :
    (handleSavePlate_effect outcome s).1.nutritionHistoryVersion
      = s.nutritionHistoryVersion + (if outcome = .ok then 1 else 0) ∧
    (handleSavePlate_effect outcome s).1.trackedItems = s.trackedItems ∧
    (handleSavePlate_effect outcome s).2
      = (if outcome = .notOk then ["Failed to save plate"] else []) := by
  cases outcome <;> simp [handleSavePlate_effect]

/-- C8: a bucket converts exactly as the same bucket with every absent or
non-numeric macro field replaced by the number 0, and the `typeof` coercion
sends every non-numeric value (`undefined`, strings, booleans) to 0. -/
theorem C8_nonNumericZero (d : ChartDatum) (s : String) (b : Bool) :
    convertDatum d
      = convertDatum { name := d.name, protein := .num (numOr0 d.protein),
                       carbs := .num (numOr0 d.carbs),
                       fat := .num (numOr0 d.fat) } ∧
    numOr0 .undef = 0 ∧ numOr0 (.str s) = 0 ∧ numOr0 (.bool b) = 0 := by
  refine ⟨?_, rfl, rfl, rfl⟩
  simp [convertDatum, numOr0]

/-- C9: with `loading = true` the chart renders the loading placeholder for
every data sequence, and with `loading = false` and zero buckets it renders
the empty-state message. -/
theorem C9_renderStates (unit viewMode : String) (data : List ChartDatum) :
    MacroChart_render unit viewMode data true = .loadingPlaceholder ∧
    MacroChart_render unit viewMode [] false = .emptyState := by
  constructor <;> simp [MacroChart_render]

/-- C10: for every tracked item whose `quantity` field is absent, 0, or
otherwise falsy, the quantity sent in the plate payload is 1; and the sent
quantity is never the number 0. -/
theorem C10_quantityDefault (item : TrackedItem) :
    (item.quantity.truthy = false → (toPlateItem item).quantity = .num 1) ∧
    (toPlateItem item).quantity ≠ .num 0 := by
  constructor
  · intro h
    simp [toPlateItem, jsOr, h]
  · simp only [toPlateItem, jsOr]
    split_ifs with h
    · intro hcontra
      rw [hcontra] at h
      simp [JVal.truthy] at h
    · simp

/-- C10, witness at an item with an absent quantity field. -/
theorem C10_quantityDefault_witness :
    (toPlateItem blankItem).quantity = .num 1 ∧
    (toPlateItem blankItem).quantity ≠ .num 0 :=
  ⟨(C10_quantityDefault blankItem).1 (by decide),
   (C10_quantityDefault blankItem).2⟩

end CrimsonBites
